import Mathlib

/-
Shallow embedding of src/ai-interface/python/minso-ai.py (MinSoTextStream
AI interface CLI client).  Python dictionaries parsed from JSON are modelled
as association lists, the token file as an optional string (its content when
it exists), the HTTP stack as an oracle from requests to either a parsed
JSON value or a transport-level failure message, and process termination by
sys.exit as an explicit outcome constructor.
-/

set_option autoImplicit false

namespace MinSo

/-- A JSON value, as produced by response.json() in the Python client. -/
inductive JVal where
  | jnull
  | jbool (b : Bool)
  | jnum (n : Int)
  | jstr (s : String)
  | jarr (xs : List JVal)
  | jobj (fields : List (String × JVal))

/-- Python truthiness of a JSON value: None, False, 0, empty string, empty
list and empty dict are falsy; everything else is truthy. -/
def truthy : JVal → Bool
  | .jnull => false
  | .jbool b => b
  | .jnum n => n != 0
  | .jstr s => s ≠ ""
  | .jarr xs => !xs.isEmpty
  | .jobj fs => !fs.isEmpty

/-- Lookup of a key in an association list modelling a Python dict
(dict keys are unique, so first match suffices): models d.get(k). -/
def jget : List (String × JVal) → String → Option JVal
  | [], _ => none
  | (k, v) :: rest, key => if k = key then some v else jget rest key

/-- Python truthiness of the result of d.get(k): a missing key yields None,
which is falsy. -/
def truthyOpt : Option JVal → Bool
  | none => false
  | some v => truthy v

/-- The error kinds the client can raise.  The Python source raises plain
Exception or built-in errors; the constructors record the raise site:
authenticationError is the line-44 raise in MinSoAI._request,
responseShapeError is a domain operation raising on a missing or falsy
marker field, valueError is the unsupported-method raise, keyError is a
d[k] lookup on a missing key, typeError covers built-in type failures
(writing a non-string to a file, len of a non-sized value),
attributeError is .get called on a non-dict. -/
inductive ClientError where
  | authenticationError (msg : String)
  | responseShapeError (msg : String)
  | valueError (msg : String)
  | keyError (key : String)
  | typeError (msg : String)
  | attributeError (msg : String)

/-- Python d[k] on a JSON value: a KeyError when the key is missing, a
TypeError when the value is not a dict (subscripting null/bool/int). -/
def pyIndex : JVal → String → Except ClientError JVal
  | .jobj fs, k =>
      match jget fs k with
      | some v => .ok v
      | none => .error (.keyError k)
  | _, k => .error (.typeError ("value is not subscriptable: " ++ k))

/-- The in-memory session state of a MinSoAI instance (base_url, token,
username, user_id from MinSoAI.__init__).  username and user_id hold
whatever JSON value the response carried, as in Python at runtime. -/
structure Session where
  base_url : String
  token : Option String
  username : Option JVal
  user_id : Option JVal

/-- Python truthiness of self.token (Optional[str]): None and the empty
string are falsy. -/
def tokenTruthy : Option String → Bool
  | none => false
  | some t => t ≠ ""

/-- An HTTP request as issued by the requests library calls in
MinSoAI._request: method, full URL, headers, optional JSON body. -/
structure Request where
  method : String
  url : String
  headers : List (String × String)
  body : Option JVal

/-- The network oracle: for a request, either the parsed JSON body of a
success response, or a message describing a requests.RequestException
(non-success HTTP status via raise_for_status, connection failure, or a
JSON parse failure of the response body). -/
def Net : Type := Request → Except String JVal

/-- Outcome of running a piece of the client: a returned value, a raised
error propagating to the caller, or process termination via sys.exit
performed by the code itself (sys.exit raises SystemExit, which the
top-level except Exception handler does not catch). -/
inductive Outcome (α : Type) where
  | ok (v : α)
  | raised (e : ClientError)
  | exited (code : Nat)

/-- The headers built in MinSoAI._request lines 42-48: Content-Type always,
Authorization Bearer token when self.token is truthy (regardless of
auth_required). -/
def buildHeaders (s : Session) : List (String × String) :=
  if tokenTruthy s.token then
    [("Content-Type", "application/json"),
     ("Authorization", "Bearer " ++ s.token.getD "")]
  else
    [("Content-Type", "application/json")]

/-- Python str.upper() on the ASCII method names used by this client:
uppercase every character. -/
def pyUpper (s : String) : String :=
  (s.toList.map Char.toUpper).asString

/-- Python str.lower() on the ASCII command names used by main:
lowercase every character. -/
def pyLower (s : String) : String :=
  (s.toList.map Char.toLower).asString

/-- MinSoAI._request (lines 39-67).  Returns the outcome together with the
list of HTTP requests actually issued (the network-call counter).  The
auth_required check precedes any network call; an unsupported method raises
ValueError inside the try block, which requests.RequestException does not
catch, so it propagates; a RequestException from the HTTP call or from
response.json() is caught, a message is printed, and the process exits
with status 1 via sys.exit(1).  builtRequest is the request value the
executor hands to the requests library: uppercased method, base_url
prepended to the endpoint, the headers of lines 42-48, and the JSON body
for the methods that send one (GET and DELETE are sent without a body in
the source). -/
def builtRequest (s : Session) (method endpoint : String) (data : Option JVal) :
    Request :=
  { method := pyUpper method, url := s.base_url ++ endpoint,
    headers := buildHeaders s,
    body := if pyUpper method = "GET" ∨ pyUpper method = "DELETE" then none
            else data }

def MinSoAI.request (s : Session) (method endpoint : String) (data : Option JVal)
    (auth_required : Bool) (net : Net) : Outcome JVal × List Request :=
  if auth_required ∧ ¬tokenTruthy s.token then
    (.raised (.authenticationError "Authentication required but no token available"), [])
  else if pyUpper method = "GET" ∨ pyUpper method = "POST"
      ∨ pyUpper method = "PUT" ∨ pyUpper method = "DELETE" then
    match net (builtRequest s method endpoint data) with
    | .ok v => (.ok v, [builtRequest s method endpoint data])
    | .error _ => (.exited 1, [builtRequest s method endpoint data])
  else
    (.raised (.valueError ("Unsupported HTTP method: " ++ method)), [])

/-- The characters str.strip() removes (restricted to the ASCII whitespace
characters, which is what appears in tokens handled by this client). -/
def isPySpace (c : Char) : Bool :=
  c = ' ' || c = '\t' || c = '\n' || c = '\x0d' || c = '\x0b' || c = '\x0c'

/-- Python str.strip() with no argument: remove leading and trailing
whitespace. -/
def pyStrip (s : String) : String :=
  ((s.toList.dropWhile isPySpace).reverse.dropWhile isPySpace).reverse.asString

/-- The token file ~/.minso-token: none when the file does not exist, some
content when it does. -/
abbrev TokenFile : Type := Option String

/-- MinSoAI._load_token (lines 25-30): if the token file exists, read it,
strip surrounding whitespace and store it as the session token; otherwise
leave the session unchanged. -/
def MinSoAI.load_token (fs : TokenFile) (s : Session) : Session :=
  match fs with
  | some content => { s with token := some (pyStrip content) }
  | none => s

/-- MinSoAI._save_token (lines 32-37): write the token string to the token
file (overwriting any prior content) and set the in-memory token. -/
def MinSoAI.save_token (fs : TokenFile) (s : Session) (token : String) :
    TokenFile × Session :=
  let _ := fs
  (some token, { s with token := some token })

/-- A fresh client instance as built by MinSoAI.__init__: fields unset,
then _load_token is run on the current token file. -/
def MinSoAI.init (fs : TokenFile) (base_url : String) : Session :=
  MinSoAI.load_token fs
    { base_url := base_url, token := none, username := none, user_id := none }

/-- os.remove on the token file: deletes it when present, raises
FileNotFoundError (a subclass of OSError) when absent; modelled with
typeError standing in for the OS error, which the logout guard prevents
from ever being raised. -/
def osRemove (fs : TokenFile) : Except ClientError TokenFile :=
  match fs with
  | some _ => .ok none
  | none => .error (.typeError "FileNotFoundError")

/-- MinSoAI.logout (lines 114-122): remove the token file only if it
exists (os.path.exists guard), then reset token, username and user_id to
None. -/
def MinSoAI.logout (fs : TokenFile) (s : Session) :
    Except ClientError (TokenFile × Session) :=
  match (if fs.isSome then osRemove fs else .ok fs) with
  | .ok fs2 =>
      .ok (fs2, { s with token := none, username := none, user_id := none })
  | .error e => .error e

/-- The body of the success branch of MinSoAI.register (lines 82-89):
self._save_token(response["token"]) — an indexing that raises KeyError when
"token" is absent, and f.write raises TypeError when the value is not a
string — then self.username = response["user"]["username"] and
self.user_id = response["user"]["id"]. -/
def registerSuccess (fs : TokenFile) (s : Session) (response : JVal) :
    Except ClientError (TokenFile × Session) := do
  let tokV ← pyIndex response "token"
  match tokV with
  | .jstr tok =>
      let fs2 := (MinSoAI.save_token fs s tok).1
      let s2 := (MinSoAI.save_token fs s tok).2
      let userV ← pyIndex response "user"
      let unameV ← pyIndex userV "username"
      let uidV ← pyIndex userV "id"
      .ok (fs2, { s2 with username := some unameV, user_id := some uidV })
  | _ => .error (.typeError "write argument must be str")

/-- Python d.get(k) with no default: None when absent, AttributeError when
the receiver is not a dict. -/
def pyGet : JVal → String → Except ClientError (Option JVal)
  | .jobj fs, k => .ok (jget fs k)
  | _, _ => .error (.attributeError "object has no attribute get")

/-- The success/raise handling of MinSoAI.register (lines 82-91) applied to
the outcome of the executor call: a response whose "user" field is truthy
leads to registerSuccess, any other response raises
Exception("Registration failed"); raises and exits of the executor pass
through. -/
def registerHandle (fs : TokenFile) (s : Session) (o : Outcome JVal) :
    Outcome (JVal × TokenFile × Session) :=
  match o with
  | .ok response =>
      match pyGet response "user" with
      | .error e => .raised e
      | .ok u =>
          if truthyOpt u then
            match registerSuccess fs s response with
            | .ok (fs2, s2) => .ok (response, fs2, s2)
            | .error e => .raised e
          else
            .raised (.responseShapeError "Registration failed")
  | .raised e => .raised e
  | .exited c => .exited c

/-- MinSoAI.register (lines 69-91): POST /auth/register with body
including isAI set to True, the outcome handled by registerHandle; the
issued requests are those of the single executor call. -/
def MinSoAI.register (fs : TokenFile) (s : Session)
    (username password bio : String) (net : Net) :
    Outcome (JVal × TokenFile × Session) × List Request :=
  (registerHandle fs s
    (MinSoAI.request s "POST" "/auth/register"
      (some (.jobj [("username", .jstr username), ("password", .jstr password),
                    ("bio", .jstr bio), ("isAI", .jbool true)])) false net).1,
   (MinSoAI.request s "POST" "/auth/register"
      (some (.jobj [("username", .jstr username), ("password", .jstr password),
                    ("bio", .jstr bio), ("isAI", .jbool true)])) false net).2)

/-- MinSoAI.health_check (lines 338-351): GET /health, then the check
`if response.get("status"):` — a truthiness test, so the operation raises
Exception("API health check failed") both when "status" is absent and when
it is present with a falsy value; on a non-dict response .get raises
AttributeError. -/
def MinSoAI.health_check (s : Session) (net : Net) : Outcome JVal × List Request :=
  match MinSoAI.request s "GET" "/health" none false net with
  | (.ok response, reqs) =>
      match pyGet response "status" with
      | .error e => (.raised e, reqs)
      | .ok v =>
          if truthyOpt v then (.ok response, reqs)
          else (.raised (.responseShapeError "API health check failed"), reqs)
  | (.raised e, reqs) => (.raised e, reqs)
  | (.exited c, reqs) => (.exited c, reqs)

/-- Python `k in v` for the values this client meets: key membership for a
dict; for any other value the like_post / follow_user responses would be
element or substring membership, modelled here only for dicts because the
check sites receive parsed objects (a TypeError stands in elsewhere). -/
def pyContains (v : JVal) (k : String) : Except ClientError Bool :=
  match v with
  | .jobj fs => .ok (jget fs k).isSome
  | _ => .error (.typeError "argument is not a mapping")

/-- MinSoAI.like_post (lines 180-193): POST /posts/{id}/like with
auth_required=True, then the check `if "isLiked" in response:` — a pure
key-presence test (unlike the .get-truthiness checks elsewhere); raises
Exception("Like failed") when the key is absent. -/
def MinSoAI.like_post (s : Session) (post_id : String) (net : Net) :
    Outcome JVal × List Request :=
  match MinSoAI.request s "POST" ("/posts/" ++ post_id ++ "/like") none true net with
  | (.ok response, reqs) =>
      match pyContains response "isLiked" with
      | .error e => (.raised e, reqs)
      | .ok b =>
          if b then (.ok response, reqs)
          else (.raised (.responseShapeError "Like failed"), reqs)
  | (.raised e, reqs) => (.raised e, reqs)
  | (.exited c, reqs) => (.exited c, reqs)

/-- MinSoAI.post (lines 124-136): POST /posts with auth_required=True and
the check `if response.get("id"):` (truthiness). -/
def MinSoAI.post (s : Session) (content : String) (net : Net) :
    Outcome JVal × List Request :=
  match MinSoAI.request s "POST" "/posts" (some (.jobj [("content", .jstr content)]))
      true net with
  | (.ok response, reqs) =>
      match pyGet response "id" with
      | .error e => (.raised e, reqs)
      | .ok v =>
          if truthyOpt v then (.ok response, reqs)
          else (.raised (.responseShapeError "Post creation failed"), reqs)
  | (.raised e, reqs) => (.raised e, reqs)
  | (.exited c, reqs) => (.exited c, reqs)

/-- The username resolution applied to a post object before display
(lines 150-151): `post.get("username") or post.get("author", {}).get("username", "unknown")`.
The right operand is evaluated only when the left is falsy; `post.get("author", {})`
substitutes an empty dict only when the key is absent, so an author field
holding a non-dict makes the inner .get raise AttributeError. -/
def resolveUsername (post : List (String × JVal)) : Except ClientError JVal :=
  match jget post "username" with
  | some v =>
      if truthy v then .ok v
      else
        match (jget post "author").getD (.jobj []) with
        | .jobj afs => .ok ((jget afs "username").getD (.jstr "unknown"))
        | _ => .error (.attributeError "object has no attribute get")
  | none =>
      match (jget post "author").getD (.jobj []) with
      | .jobj afs => .ok ((jget afs "username").getD (.jstr "unknown"))
      | _ => .error (.attributeError "object has no attribute get")

/-- The count resolution applied to a post object before display
(lines 152-153): `post.get(primary) or post.get(fallback, 0)`.  The
fallback is consulted whenever the primary is absent OR falsy (None, 0,
False, ...), and the default 0 applies only when the fallback key is also
absent. -/
def resolveCount (post : List (String × JVal)) (primary fallback : String) : JVal :=
  match jget post primary with
  | some v => if truthy v then v else (jget post fallback).getD (.jnum 0)
  | none => (jget post fallback).getD (.jnum 0)

/-- One line of the feed display built by the loop in MinSoAI.get_posts
(lines 146-156): the shown content, username, like and comment counts and
the post id. -/
structure DisplayLine where
  content : String
  username : JVal
  likes : JVal
  comments : JVal
  post_id : JVal

/-- The display shaping of one post in MinSoAI.get_posts (lines 146-156):
content = post["content"] (KeyError when absent, and only strings have the
len/slice operations used next), truncated to its first 100 characters
plus "..." when longer than 100; then username, likes, comments resolved
with the fallback rules; post["id"] is read for the printed id line.  The
truncation rebinds the loop-local variable only: the post object is not
written to. -/
def displayPost (post : List (String × JVal)) : Except ClientError DisplayLine :=
  match pyIndex (.jobj post) "content" with
  | .error e => .error e
  | .ok (.jstr c) =>
      let shown :=
        if 100 < c.toList.length then (c.toList.take 100).asString ++ "..." else c
      match resolveUsername post with
      | .error e => .error e
      | .ok uname =>
          match pyIndex (.jobj post) "id" with
          | .error e => .error e
          | .ok idV =>
              .ok { content := shown, username := uname,
                    likes := resolveCount post "likes" "likeCount",
                    comments := resolveCount post "comments" "commentCount",
                    post_id := idV }
  | .ok _ => .error (.typeError "object has no len")

/-- The display loop of MinSoAI.get_posts over the elements of the
response array; a non-dict element makes post["content"] raise TypeError. -/
def displayAll : List JVal → Except ClientError (List DisplayLine)
  | [] => .ok []
  | .jobj post :: rest =>
      match displayPost post with
      | .error e => .error e
      | .ok line =>
          match displayAll rest with
          | .error e => .error e
          | .ok lines => .ok (line :: lines)
  | _ :: _ => .error (.typeError "value is not subscriptable: content")

/-- MinSoAI.get_posts (lines 138-159): GET /posts?limit&offset; if the
parsed response is a list, display each element and return the response
object itself (`return response`, line 157) unchanged; otherwise raise
Exception("Failed to fetch posts"). -/
def MinSoAI.get_posts (s : Session) (limit offset : Int) (net : Net) :
    Outcome (List DisplayLine × JVal) × List Request :=
  match MinSoAI.request s "GET"
      ("/posts?limit=" ++ toString limit ++ "&offset=" ++ toString offset)
      none false net with
  | (.ok (.jarr posts), reqs) =>
      match displayAll posts with
      | .ok lines => (.ok (lines, .jarr posts), reqs)
      | .error e => (.raised e, reqs)
  | (.ok _, reqs) => (.raised (.responseShapeError "Failed to fetch posts"), reqs)
  | (.raised e, reqs) => (.raised e, reqs)
  | (.exited c, reqs) => (.exited c, reqs)

/-- Exit status contributed by running one domain operation inside the
try block of main (lines 379-449): normal completion lets main return
(status 0); an exception is caught by `except Exception`, printed on one
line, and sys.exit(1) runs; a SystemExit raised by sys.exit(1) inside
MinSoAI._request is not an Exception, so it propagates and the process
exits with that code. -/
def handleOp : Outcome Unit → Nat
  | .ok _ => 0
  | .raised _ => 1
  | .exited c => c

/-- The command dispatcher main (lines 354-449), modelled as the exit
status of the process.  argv is the full sys.argv including the program
name; pint models the built-in int() (none = ValueError); run is the
outcome of the single domain operation the command would execute.
Missing-argument branches print usage and return from main, so the
process exits 0; an unknown command prints a message and falls off the
end of the try block, also exiting 0. -/
def mainDispatch (argv : List String) (pint : String → Option Int)
    (run : Outcome Unit) : Nat :=
  match argv with
  | [] => 0
  | [_] => 0
  | _ :: cmd :: args =>
    let c := pyLower cmd
    if c = "register" then
      if args.length < 2 then 0 else handleOp run
    else if c = "login" then
      if args.length < 2 then 0 else handleOp run
    else if c = "logout" then handleOp run
    else if c = "post" then
      if args.length < 1 then 0 else handleOp run
    else if c = "get-posts" then
      match args with
      | [] => handleOp run
      | a :: _ =>
        match pint a with
        | some _ => handleOp run
        | none => 1
    else if c = "like" then
      if args.length < 1 then 0 else handleOp run
    else if c = "follow" then
      if args.length < 1 then 0 else handleOp run
    else if c = "trending" then
      match args with
      | [] => handleOp run
      | a :: _ =>
        match pint a with
        | some _ => handleOp run
        | none => 1
    else if c = "search" then
      if args.length < 1 then 0 else handleOp run
    else if c = "profile" then handleOp run
    else if c = "health" then handleOp run
    else 0

/-- The default base URL of the client. -/
def defaultBase : String := "http://localhost:5000/api"

/-- A fresh session with no token (a new client instance when no token
file exists). -/
def s0 : Session :=
  { base_url := defaultBase, token := none, username := none, user_id := none }

/-- A session holding the token tok123 together with the identity stored
by a successful register with the mocked response of the spec. -/
def sReg : Session :=
  { base_url := defaultBase, token := some "tok123",
    username := some (.jstr "bot1"), user_id := some (.jstr "u1") }

/-- The mocked successful register response of the spec:
user bot1 with id u1, token tok123. -/
def regResp : JVal :=
  .jobj [("user", .jobj [("username", .jstr "bot1"), ("id", .jstr "u1")]),
         ("token", .jstr "tok123")]

/-- Claim C1: every operation invoked with auth_required=True while the
session token is unset or empty fails with the authentication error
before any network call is attempted — the list of issued requests is
empty.  Stated for the generic executor at an arbitrary method, endpoint
and body, and for the like_post operation. -/
theorem authRequiredFailsBeforeNetwork (s : Session)
    (method endpoint post_id : String) (data : Option JVal) (net : Net)
    (h : s.token = none ∨ s.token = some "") :
    MinSoAI.request s method endpoint data true net
        = (.raised (.authenticationError
            "Authentication required but no token available"), [])
      ∧ MinSoAI.like_post s post_id net
        = (.raised (.authenticationError
            "Authentication required but no token available"), []) := by
  have ht : tokenTruthy s.token = false := by
    rcases h with h | h <;> simp [h, tokenTruthy]
  constructor
  · simp [MinSoAI.request, ht]
  · simp [MinSoAI.like_post, MinSoAI.request, ht]

/-- Witness for C1: on a fresh tokenless session, creating a post and
toggling a like both fail with the authentication error and issue no
request. -/
theorem authRequiredFailsBeforeNetworkWitness :
    MinSoAI.request s0 "POST" "/posts" none true (fun _ => .ok .jnull)
        = (.raised (.authenticationError
            "Authentication required but no token available"), [])
      ∧ MinSoAI.like_post s0 "p1" (fun _ => .ok .jnull)
        = (.raised (.authenticationError
            "Authentication required but no token available"), []) :=
  authRequiredFailsBeforeNetwork s0 "POST" "/posts" "p1" none
    (fun _ => .ok .jnull) (Or.inl rfl)

/-- Counterexample to claim C2 as stated: on a transport-level failure
(here a connection failure reported by the network oracle) the generic
request executor itself terminates the process with exit status 1 — the
outcome is exited 1, not a raised RequestError left for the top-level
dispatcher. -/
theorem requestExitsOnFailureCex :
    (MinSoAI.request s0 "GET" "/health" none false
        (fun _ => .error "connection refused")).1 = .exited 1 := rfl

/-- Claim C2 as amended: for every session, endpoint and body, and every
supported method, when the HTTP layer reports a requests.RequestException
(non-success status via raise_for_status, connection failure, or response
JSON parse failure) the executor prints a message and terminates the
process itself with exit status 1. -/
theorem requestExitsOnFailure (s : Session) (method endpoint : String)
    (data : Option JVal) (msg : String)
    (hm : pyUpper method = "GET" ∨ pyUpper method = "POST"
        ∨ pyUpper method = "PUT" ∨ pyUpper method = "DELETE") :
    (MinSoAI.request s method endpoint data false
        (fun _ => .error msg)).1 = .exited 1 := by
  rcases hm with h | h | h | h <;>
    simp [MinSoAI.request, h]

/-- Witness for C2 (amended): a PUT whose transport fails makes the
executor exit with status 1. -/
theorem requestExitsOnFailureWitness :
    (MinSoAI.request s0 "put" "/posts" none false
        (fun _ => .error "500 server error")).1 = .exited 1 :=
  requestExitsOnFailure s0 "put" "/posts" none "500 server error"
    (Or.inr (Or.inr (Or.inl rfl)))

/-- Counterexample to claim C3 as stated: the round-trip is not the
identity for every token string, because _load_token strips the stored
content.  Saving the token " tok " and loading in a fresh client
instance yields "tok". -/
theorem saveLoadRoundTripCex :
    (MinSoAI.init (MinSoAI.save_token none s0 " tok ").1 defaultBase).token
        = some "tok"
      ∧ (" tok " : String) ≠ "tok" := by
  exact ⟨rfl, by decide⟩

/-- Claim C3 as amended: save(token) followed by load() in a new client
instance yields the stripped token, hence exactly the original token
whenever the token has no surrounding whitespace. -/
theorem saveLoadRoundTrip (fs : TokenFile) (s : Session) (token base : String) :
    (MinSoAI.init (MinSoAI.save_token fs s token).1 base).token
        = some (pyStrip token)
      ∧ (pyStrip token = token →
          (MinSoAI.init (MinSoAI.save_token fs s token).1 base).token
            = some token) := by
  refine ⟨rfl, fun h => ?_⟩
  simp [MinSoAI.init, MinSoAI.load_token, MinSoAI.save_token, h]

/-- Witness for C3 (amended): the whitespace-free token tok123
round-trips exactly. -/
theorem saveLoadRoundTripWitness :
    (MinSoAI.init (MinSoAI.save_token none s0 "tok123").1 defaultBase).token
      = some "tok123" :=
  (saveLoadRoundTrip none s0 "tok123" defaultBase).2 (by decide)

/-- Counterexample to claim C4 as stated: the health check marker test is
a truthiness test, not a presence test.  With the response object
having "status" present but equal to the empty string, the field is
present yet the operation raises the shape error instead of returning
the payload. -/
theorem markerTruthinessCex :
    (MinSoAI.health_check s0 (fun _ => .ok (.jobj [("status", .jstr "")]))).1
        = .raised (.responseShapeError "API health check failed")
      ∧ jget [("status", .jstr "")] "status" = some (.jstr "") :=
  ⟨rfl, rfl⟩

/-- Claim C4 as amended: for operations whose check is
`if response.get(marker):` (health_check shown here) the payload is
returned unchanged exactly when the marker field is present with a truthy
value, and the shape error is raised when it is absent or falsy; for
operations whose check is `if marker in response:` (like_post shown
here) presence alone decides. -/
theorem markerChecks (s : Session) (flds : List (String × JVal))
    (post_id : String) (h : tokenTruthy s.token = true) :
    (MinSoAI.health_check s (fun _ => .ok (.jobj flds))).1
        = (if truthyOpt (jget flds "status") then .ok (.jobj flds)
           else .raised (.responseShapeError "API health check failed"))
      ∧ (MinSoAI.like_post s post_id (fun _ => .ok (.jobj flds))).1
        = (if (jget flds "isLiked").isSome then .ok (.jobj flds)
           else .raised (.responseShapeError "Like failed")) := by
  constructor
  · by_cases hst : truthyOpt (jget flds "status") = true <;>
      simp [MinSoAI.health_check, MinSoAI.request, pyGet, hst,
        show pyUpper "GET" = "GET" from rfl]
  · by_cases hl : (jget flds "isLiked").isSome = true <;>
      simp [MinSoAI.like_post, MinSoAI.request, pyContains, h, hl,
        show pyUpper "POST" = "POST" from rfl]

/-- Witness for C4 (amended): with token present and a response carrying
a truthy "status" and an "isLiked" key, both operations return the
payload unchanged. -/
theorem markerChecksWitness :
    (MinSoAI.health_check sReg
        (fun _ => .ok (.jobj [("status", .jstr "ok"), ("isLiked", .jbool true)]))).1
        = .ok (.jobj [("status", .jstr "ok"), ("isLiked", .jbool true)])
      ∧ (MinSoAI.like_post sReg "p1"
          (fun _ => .ok (.jobj [("status", .jstr "ok"), ("isLiked", .jbool true)]))).1
        = .ok (.jobj [("status", .jstr "ok"), ("isLiked", .jbool true)]) := by
  have h := markerChecks sReg [("status", .jstr "ok"), ("isLiked", .jbool true)]
    "p1" (by decide)
  exact ⟨h.1.trans rfl, h.2.trans rfl⟩

/-- Every request the executor actually issues carries exactly the headers
built from the session. -/
theorem request_headers (s : Session) (method endpoint : String)
    (data : Option JVal) (a : Bool) (net : Net) (req : Request)
    (hmem : req ∈ (MinSoAI.request s method endpoint data a net).2) :
    req.headers = buildHeaders s := by
  unfold MinSoAI.request at hmem
  split at hmem
  · simp at hmem
  · split at hmem
    · split at hmem <;>
        · simp at hmem
          subst hmem
          rfl
    · simp at hmem

/-- Claim C5: whenever a non-empty token is in the session, every request
issued by the executor carries the Authorization Bearer header, whatever
the auth_required flag; and running register against the mocked response
of the spec stores tok123 in the session and the token file, so that
subsequent calls attach Authorization: Bearer tok123 by the first part. -/
theorem bearerHeaderAttached :
    (∀ (s : Session) (t method endpoint : String) (data : Option JVal)
        (a : Bool) (net : Net) (req : Request),
        s.token = some t → t ≠ "" →
        req ∈ (MinSoAI.request s method endpoint data a net).2 →
        ("Authorization", "Bearer " ++ t) ∈ req.headers)
      ∧ MinSoAI.register none s0 "bot1" "pw" "bio" (fun _ => .ok regResp)
          = (.ok (regResp, some "tok123", sReg),
             [{ method := "POST", url := defaultBase ++ "/auth/register",
                headers := [("Content-Type", "application/json")],
                body := some (.jobj [("username", .jstr "bot1"),
                                     ("password", .jstr "pw"),
                                     ("bio", .jstr "bio"),
                                     ("isAI", .jbool true)]) }]) := by
  constructor
  · intro s t method endpoint data a net req ht hne hmem
    have hh := request_headers s method endpoint data a net req hmem
    have htt : tokenTruthy (some t) = true := by simp [tokenTruthy, hne]
    rw [hh]
    simp [buildHeaders, ht, htt]
  · rfl

/-- Witness for C5: in the session produced by the mocked register, a
GET request carries the Bearer tok123 header. -/
theorem bearerHeaderAttachedWitness :
    ("Authorization", "Bearer " ++ "tok123") ∈
      (Request.headers
        { method := "GET", url := defaultBase ++ "/health",
          headers := buildHeaders sReg, body := none }) :=
  bearerHeaderAttached.1 sReg "tok123" "GET" "/health" none false
    (fun _ => .ok .jnull)
    { method := "GET", url := defaultBase ++ "/health",
      headers := buildHeaders sReg, body := none }
    rfl (by decide) (by exact List.Mem.head _)

/-- A post object whose "likes" field is present with value 0 next to a
"likeCount" of 5. -/
def postLikesZero : List (String × JVal) :=
  [("id", .jstr "p1"), ("content", .jstr "x"),
   ("likes", .jnum 0), ("likeCount", .jnum 5)]

/-- A post object whose "likes" field is present with value 0 and no
"likeCount". -/
def postLikesOnlyZero : List (String × JVal) :=
  [("id", .jstr "p1"), ("content", .jstr "x"), ("likes", .jnum 0)]

/-- Counterexample to claim C6 as stated: the count fallback fires on a
falsy present value, not only on absence.  With likes present and equal
to 0 next to likeCount 5, the shown count is 5, not the value of the
likes field; and with likes present and equal to 0 alone, the shown
count is 0 even though a count field is present. -/
theorem displayFallbackCex :
    displayPost postLikesZero
        = .ok { content := "x", username := .jstr "unknown",
                likes := .jnum 5, comments := .jnum 0, post_id := .jstr "p1" }
      ∧ jget postLikesZero "likes" = some (.jnum 0)
      ∧ JVal.jnum 5 ≠ JVal.jnum 0
      ∧ displayPost postLikesOnlyZero
          = .ok { content := "x", username := .jstr "unknown",
                  likes := .jnum 0, comments := .jnum 0, post_id := .jstr "p1" }
      ∧ jget postLikesOnlyZero "likes" = some (.jnum 0) := by
  refine ⟨rfl, rfl, ?_, rfl, rfl⟩
  intro hcontra
  injection hcontra with h5
  exact absurd h5 (by decide)

/-- Claim C6 as amended: the shown author name is the username field when
it is present with a truthy (non-empty) value, otherwise author.username
when author is a present object, otherwise the literal "unknown"; the
shown like count is the likes field when present and truthy (nonzero),
otherwise likeCount when present, otherwise 0 — so the fallback fires on
falsy present values too, and the display record of a post carries
exactly these resolved values (comments behave like likes with the
commentCount fallback). -/
theorem displayFallback (post : List (String × JVal)) :
    (∀ v, jget post "likes" = some v → truthy v = true →
        resolveCount post "likes" "likeCount" = v)
      ∧ (∀ v, jget post "likes" = some v → truthy v = false →
          resolveCount post "likes" "likeCount"
            = (jget post "likeCount").getD (.jnum 0))
      ∧ (jget post "likes" = none →
          resolveCount post "likes" "likeCount"
            = (jget post "likeCount").getD (.jnum 0))
      ∧ (∀ v, jget post "username" = some v → truthy v = true →
          resolveUsername post = .ok v)
      ∧ (truthyOpt (jget post "username") = false → jget post "author" = none →
          resolveUsername post = .ok (.jstr "unknown"))
      ∧ (∀ afs, truthyOpt (jget post "username") = false →
          jget post "author" = some (.jobj afs) →
          resolveUsername post = .ok ((jget afs "username").getD (.jstr "unknown")))
      ∧ (∀ d, displayPost post = .ok d →
          d.likes = resolveCount post "likes" "likeCount"
            ∧ d.comments = resolveCount post "comments" "commentCount"
            ∧ Except.ok d.username = resolveUsername post) := by
  refine ⟨?_, ?_, ?_, ?_, ?_, ?_, ?_⟩
  · intro v hv ht
    simp [resolveCount, hv, ht]
  · intro v hv ht
    simp [resolveCount, hv, ht]
  · intro hn
    simp [resolveCount, hn]
  · intro v hv ht
    simp [resolveUsername, hv, ht]
  · intro hu ha
    cases h : jget post "username" with
    | none => simp [resolveUsername, jget, h, ha]
    | some v =>
        have hf : truthy v = false := by simpa [truthyOpt, h] using hu
        simp [resolveUsername, jget, h, hf, ha]
  · intro afs hu ha
    cases h : jget post "username" with
    | none => simp [resolveUsername, h, ha]
    | some v =>
        have hf : truthy v = false := by simpa [truthyOpt, h] using hu
        simp [resolveUsername, h, hf, ha]
  · intro d hd
    unfold displayPost at hd
    cases hc : pyIndex (.jobj post) "content" with
    | error e => simp [hc] at hd
    | ok cv =>
        cases cv <;> simp [hc] at hd
        case jstr c =>
          cases hu : resolveUsername post with
          | error e => simp [hu] at hd
          | ok uv =>
              cases hid : pyIndex (.jobj post) "id" with
              | error e => simp [hu, hid] at hd
              | ok idv =>
                  simp [hu, hid] at hd
                  subst hd
                  exact ⟨rfl, rfl, rfl⟩

/-- Witness for C6 (amended): on a post carrying username alice and
likes 3, the resolved author name is alice. -/
theorem displayFallbackWitness :
    resolveUsername [("username", .jstr "alice"), ("likes", .jnum 3)]
      = .ok (.jstr "alice") :=
  (displayFallback [("username", .jstr "alice"), ("likes", .jnum 3)]).2.2.2.1
    (.jstr "alice") rfl (by decide)

/-- Claim C7: posts longer than 100 characters are displayed as their
first 100 characters followed by the ellipsis marker, while get_posts
returns the parsed response array itself, unchanged — the display
shaping never mutates the returned data. -/
theorem truncationDoesNotMutate (s : Session) (limit offset : Int)
    (posts : List JVal) (lines : List DisplayLine)
    (h : displayAll posts = .ok lines) :
    (MinSoAI.get_posts s limit offset (fun _ => .ok (.jarr posts))).1
        = .ok (lines, .jarr posts)
      ∧ (∀ (post : List (String × JVal)) (c : String) (d : DisplayLine),
          jget post "content" = some (.jstr c) → 100 < c.toList.length →
          displayPost post = .ok d →
          d.content = (c.toList.take 100).asString ++ "...") := by
  constructor
  · simp [MinSoAI.get_posts, MinSoAI.request, h,
      show pyUpper "GET" = "GET" from rfl]
  · intro post c d hc hlen hd
    unfold displayPost at hd
    simp only [pyIndex, hc, hlen, if_true] at hd
    cases hu : resolveUsername post with
    | error e => simp [hu] at hd
    | ok uv =>
        cases hid : jget post "id" with
        | none => simp [hu, hid] at hd
        | some idv =>
            simp [hu, hid] at hd
            subst hd
            rfl

/-- The 150-character content of the C7 witness. -/
def longContent : String := (List.replicate 150 'x').asString

/-- The spec example post: 150 x characters of content, author alice,
likeCount 3. -/
def longPost : JVal :=
  .jobj [("id", .jstr "p1"), ("content", .jstr longContent),
         ("author", .jobj [("username", .jstr "alice")]),
         ("likeCount", .jnum 3)]

set_option maxRecDepth 8000 in
/-- Witness for C7: fetching the one-element feed with the 150-character
post shows the truncated content with the ellipsis and returns the
response array unchanged. -/
theorem truncationDoesNotMutateWitness :
    (MinSoAI.get_posts s0 10 0 (fun _ => .ok (.jarr [longPost]))).1
      = .ok ([{ content := (longContent.toList.take 100).asString ++ "...",
                username := .jstr "alice", likes := .jnum 3,
                comments := .jnum 0, post_id := .jstr "p1" }], .jarr [longPost]) :=
  (truncationDoesNotMutate s0 10 0 [longPost]
    [{ content := (longContent.toList.take 100).asString ++ "...",
       username := .jstr "alice", likes := .jnum 3,
       comments := .jnum 0, post_id := .jstr "p1" }] (by rfl)).1

/-- Claim C8: logout always succeeds — also when the token file does not
exist, thanks to the os.path.exists guard — leaving no token file and
unsetting token, username and user_id; a load in a new client instance
built over the missing file leaves the token unset. -/
theorem logoutClears (fs : TokenFile) (s : Session) (base : String) :
    MinSoAI.logout fs s
        = .ok (none, { s with token := none, username := none, user_id := none })
      ∧ (MinSoAI.init none base).token = none := by
  constructor
  · cases fs with
    | none => rfl
    | some c => rfl
  · rfl

/-- Claim C9: a known command with missing required arguments makes main
print usage and exit 0; an unknown command prints an error and exits 0;
an exception raised while an operation executes is caught at the top
level, printed, and the process exits 1. -/
theorem cliExitCodes (run : Outcome Unit) (pint : String → Option Int)
    (e : ClientError) (cmd : String) (args : List String)
    (hunk : pyLower cmd ∉ (["register", "login", "logout", "post",
        "get-posts", "like", "follow", "trending", "search", "profile",
        "health"] : List String)) :
    mainDispatch ["prog"] pint run = 0
      ∧ mainDispatch ["prog", "register", "u"] pint run = 0
      ∧ mainDispatch ["prog", "login", "u"] pint run = 0
      ∧ mainDispatch ["prog", "post"] pint run = 0
      ∧ mainDispatch ["prog", "like"] pint run = 0
      ∧ mainDispatch ["prog", "follow"] pint run = 0
      ∧ mainDispatch ["prog", "search"] pint run = 0
      ∧ mainDispatch ("prog" :: cmd :: args) pint run = 0
      ∧ mainDispatch ["prog", "health"] pint (.raised e) = 1
      ∧ mainDispatch ["prog", "like", "p1"] pint (.raised e) = 1
      ∧ mainDispatch ["prog", "register", "u", "p"] pint (.raised e) = 1
      ∧ mainDispatch ["prog", "logout"] pint (.raised e) = 1 := by
  refine ⟨rfl, rfl, rfl, rfl, rfl, rfl, rfl, ?_, rfl, rfl, rfl, rfl⟩
  simp only [List.mem_cons, List.not_mem_nil, or_false, not_or] at hunk
  simp [mainDispatch, hunk]

/-- Witness for C9: the unknown command frobnicate exits 0. -/
theorem cliExitCodesWitness :
    mainDispatch ["prog", "frobnicate"] (fun _ => none) (.ok ()) = 0 :=
  (cliExitCodes (.ok ()) (fun _ => none) (.valueError "x") "frobnicate" []
    (by decide)).2.2.2.2.2.2.2.1

/-- The executor issues exactly the built request on a POST that needs no
auth, whatever the network outcome. -/
theorem request_post_reqs (s : Session) (endpoint : String)
    (data : Option JVal) (net : Net) :
    (MinSoAI.request s "POST" endpoint data false net).2
      = [builtRequest s "POST" endpoint data] := by
  unfold MinSoAI.request
  rw [if_neg (by simp)]
  rw [if_pos (by simp [show pyUpper "POST" = "POST" from rfl])]
  cases net (builtRequest s "POST" endpoint data) <;> rfl

/-- Claim C10: for every username, password and bio, register issues
exactly one POST to /auth/register whose body is the four-field object
holding the given credentials and bio together with isAI set to true;
in particular the isAI field of the sent body is always true, so no
non-AI account can be registered through this client. -/
theorem registerSendsIsAI (fs : TokenFile) (s : Session) (u p b : String)
    (net : Net) :
    (MinSoAI.register fs s u p b net).2
        = [builtRequest s "POST" "/auth/register"
            (some (.jobj [("username", .jstr u), ("password", .jstr p),
                          ("bio", .jstr b), ("isAI", .jbool true)]))]
      ∧ (builtRequest s "POST" "/auth/register"
            (some (.jobj [("username", .jstr u), ("password", .jstr p),
                          ("bio", .jstr b), ("isAI", .jbool true)]))).body
          = some (.jobj [("username", .jstr u), ("password", .jstr p),
                         ("bio", .jstr b), ("isAI", .jbool true)])
      ∧ jget [("username", .jstr u), ("password", .jstr p),
              ("bio", .jstr b), ("isAI", .jbool true)] "isAI"
          = some (.jbool true) := by
  exact ⟨request_post_reqs s "/auth/register"
    (some (.jobj [("username", .jstr u), ("password", .jstr p),
                  ("bio", .jstr b), ("isAI", .jbool true)])) net, rfl, rfl⟩

end MinSo
